import Mathlib

/-!
Formal model of the resource-reservation core of a cluster scheduler plugin for
autoscaling VM workloads.

The ledgers use Go `uint16` arithmetic; we model the values as `Nat` together
with explicit wraparound modulo 2^16 (`wadd`, `wsub`, `wmul`).  Panics in the Go
source are modelled by returning `none`.  Verdict strings (used only for
logging) are dropped.  Raw kubernetes resource quantities are modelled as `Int`
(they are signed, arbitrary-precision fixed-point values; the code under study
only uses their integer values and comparisons).
-/

/-- Modulus of Go uint16 arithmetic. -/
def u16 : Nat := 65536

/-- Wrapping addition of two uint16 values (Go `a + b`). -/
def wadd (a b : Nat) : Nat := (a + b) % u16

/-- Wrapping subtraction of two uint16 values (Go `a - b`). -/
def wsub (a b : Nat) : Nat := (a + (u16 - b % u16)) % u16

/-- Wrapping multiplication of two uint16 values (Go `a * b`). -/
def wmul (a b : Nat) : Nat := (a * b) % u16

/-- Saturating subtraction, from `util.SaturatingSub` (this is exactly
truncated `Nat` subtraction). -/
def saturatingSub (a b : Nat) : Nat := a - b

/-- Per-resource ledger kept on a node (`nodeResourceState[T]`). The later
version of the source also tracks `Buffer`; the earlier `state.go` version has
the same fields minus `Buffer`; functions taken from the earlier version simply
never touch `Buffer`. -/
@[ext]
structure NodeResourceState where
  Total : Nat
  System : Nat
  Watermark : Nat
  Reserved : Nat
  Buffer : Nat
  CapacityPressure : Nat
  PressureAccountedFor : Nat
deriving DecidableEq

/-- Per-resource ledger kept on a pod (`podResourceState[T]`), in its richer
form with `Buffer`, `Min` and `Max`. -/
@[ext]
structure PodResourceState where
  Reserved : Nat
  Buffer : Nat
  CapacityPressure : Nat
  Min : Nat
  Max : Nat
deriving DecidableEq

/-- All fields of a node ledger are in uint16 range. -/
def NodeResourceState.WF (n : NodeResourceState) : Prop :=
  n.Total < u16 ∧ n.System < u16 ∧ n.Watermark < u16 ∧ n.Reserved < u16 ∧
    n.Buffer < u16 ∧ n.CapacityPressure < u16 ∧ n.PressureAccountedFor < u16

instance (n : NodeResourceState) : Decidable n.WF := by
  unfold NodeResourceState.WF; infer_instance

/-- All fields of a pod ledger are in uint16 range. -/
def PodResourceState.WF (p : PodResourceState) : Prop :=
  p.Reserved < u16 ∧ p.Buffer < u16 ∧ p.CapacityPressure < u16 ∧
    p.Min < u16 ∧ p.Max < u16

instance (p : PodResourceState) : Decidable p.WF := by
  unfold PodResourceState.WF; infer_instance

/-- Shared tail of `handleLastPermit`, `handleRequested` (verdict block): if the
pod has a nonzero buffer, clear it and subtract it from the node's buffer. -/
def clearBuffer (n : NodeResourceState) (p : PodResourceState) :
    NodeResourceState × PodResourceState :=
  if p.Buffer ≠ 0 then
    ({ n with Buffer := wsub n.Buffer p.Buffer }, { p with Buffer := 0 })
  else
    (n, p)

/-- Transition `handleLastPermit(lastPermit)`: replay of the last permit granted
by a previous scheduler. -/
def handleLastPermit (lastPermit : Nat) (n : NodeResourceState)
    (p : PodResourceState) : NodeResourceState × PodResourceState :=
  if lastPermit ≤ p.Reserved then
    let n1 := { n with Reserved := wsub n.Reserved (wsub p.Reserved lastPermit) }
    let p1 := { p with Reserved := lastPermit }
    clearBuffer n1 p1
  else
    (n, p)

/-- Transition `handleRequested(requested, startingMigration, factor)`.
Returns `none` on the Go panics: the `r.pod.Buffer != 0` assertion on the
migration branch, and division by a zero `factor` on the increase branch. -/
def handleRequested (requested : Nat) (startingMigration : Bool) (factor : Nat)
    (n : NodeResourceState) (p : PodResourceState) :
    Option (NodeResourceState × PodResourceState) :=
  let totalReservable := n.Total
  let remainingReservable := saturatingSub totalReservable n.Reserved
  if requested ≤ p.Reserved then
    let n1 := { n with
      Reserved := wsub n.Reserved (wsub p.Reserved requested),
      CapacityPressure := wsub n.CapacityPressure p.CapacityPressure }
    let p1 := { p with Reserved := requested, CapacityPressure := 0 }
    some (clearBuffer n1 p1)
  else if startingMigration then
    let newPodCP := wsub requested p.Reserved
    let n1 := { n with
      CapacityPressure := wsub (wadd n.CapacityPressure newPodCP) p.CapacityPressure }
    let p1 := { p with CapacityPressure := newPodCP }
    if p1.Buffer ≠ 0 then none else some (n1, p1)
  else if factor = 0 then
    none
  else
    let increase := wsub requested p.Reserved
    let maxIncrease := wmul (remainingReservable / factor) factor
    let step :=
      if increase > maxIncrease then
        let newPodCP := wsub increase maxIncrease
        ({ n with CapacityPressure :=
            (wadd (wsub n.CapacityPressure p.CapacityPressure) newPodCP) },
         { p with CapacityPressure := newPodCP },
         maxIncrease)
      else
        ({ n with CapacityPressure := wsub n.CapacityPressure p.CapacityPressure },
         { p with CapacityPressure := 0 },
         increase)
    let n2 := { step.1 with Reserved := wadd step.1.Reserved step.2.2 }
    let p2 := { step.2.1 with Reserved := wadd step.2.1.Reserved step.2.2 }
    some (clearBuffer n2 p2)

/-- Transition `handleDeleted(currentlyMigrating)`: remove the pod's
contribution from the node ledger. Only the node changes. -/
def handleDeleted (currentlyMigrating : Bool) (n : NodeResourceState)
    (p : PodResourceState) : NodeResourceState :=
  let n1 := { n with
    Reserved := wsub n.Reserved p.Reserved,
    CapacityPressure := wsub n.CapacityPressure p.CapacityPressure }
  let n2 :=
    if currentlyMigrating then
      { n1 with PressureAccountedFor :=
          (wsub n1.PressureAccountedFor (wadd p.Reserved p.CapacityPressure)) }
    else n1
  if p.Buffer ≠ 0 then { n2 with Buffer := wsub n2.Buffer p.Buffer } else n2

/-- Transition `handleAutoscalingDisabled()`: reduce node and pod `Reserved` and
`Buffer` by the pod's buffer; clear the pod's capacity pressure. -/
def handleAutoscalingDisabled (n : NodeResourceState) (p : PodResourceState) :
    NodeResourceState × PodResourceState :=
  let buffer := p.Buffer
  let n1 := { n with
    Reserved := wsub n.Reserved buffer,
    Buffer := wsub n.Buffer buffer,
    CapacityPressure := wsub n.CapacityPressure p.CapacityPressure }
  let p1 := { p with
    Reserved := wsub p.Reserved buffer,
    Buffer := wsub p.Buffer buffer,
    CapacityPressure := 0 }
  (n1, p1)

/-- Transition `handleStartMigration(source)` as written in the source: the same
mutations as `handleAutoscalingDisabled`, then the node's
`PressureAccountedFor` is increased by the pod's (post-reduction) `Reserved`. -/
def handleStartMigration (source : Bool) (n : NodeResourceState)
    (p : PodResourceState) : NodeResourceState × PodResourceState :=
  let _ := source
  let buffer := p.Buffer
  let n1 := { n with
    Reserved := wsub n.Reserved buffer,
    Buffer := wsub n.Buffer buffer,
    CapacityPressure := wsub n.CapacityPressure p.CapacityPressure }
  let p1 := { p with
    Reserved := wsub p.Reserved buffer,
    Buffer := wsub p.Buffer buffer,
    CapacityPressure := 0 }
  ({ n1 with PressureAccountedFor := wadd n1.PressureAccountedFor p1.Reserved }, p1)

/-- Transition `handleUpdatedLimits(receivedContact, newMin, newMax)`. -/
def handleUpdatedLimits (receivedContact : Bool) (newMin newMax : Nat)
    (n : NodeResourceState) (p : PodResourceState) :
    NodeResourceState × PodResourceState :=
  if newMin = p.Min ∧ newMax = p.Max then
    (n, p)
  else
    let updateBuffer := !receivedContact && decide (p.Max ≠ newMax)
    let step :=
      if updateBuffer then
        let usingAmt := wsub p.Reserved p.Buffer
        let newReserved := max newMax usingAmt
        let newBuffer := wsub newReserved usingAmt
        ({ n with
            Reserved := wsub (wadd n.Reserved newReserved) p.Reserved,
            Buffer := wsub (wadd n.Buffer newBuffer) p.Buffer },
         { p with Reserved := newReserved, Buffer := newBuffer })
      else (n, p)
    (step.1, { step.2 with Min := newMin, Max := newMax })

/-- Predicate `tooMuchPressure()` from `state.go`, exactly as coded: note the
strict `<` on the memory side of the guard, and the wrapping uint16
subtractions for the logical pressures. -/
def tooMuchPressure (vCPU memSlots : NodeResourceState) : Bool :=
  if vCPU.Reserved ≤ vCPU.Watermark ∧ memSlots.Reserved < memSlots.Watermark then
    false
  else
    let logicalCpuPressure := wsub vCPU.Reserved vCPU.Watermark
    let logicalMemPressure := wsub memSlots.Reserved memSlots.Watermark
    let tooMuchCpu :=
      decide (wadd logicalCpuPressure vCPU.CapacityPressure > vCPU.PressureAccountedFor)
    let tooMuchMem :=
      decide (wadd logicalMemPressure memSlots.CapacityPressure > memSlots.PressureAccountedFor)
    tooMuchCpu || tooMuchMem

/-- Pressure predicate as worded by the claim and the spec: false when both
resources have `Reserved ≤ Watermark`; otherwise true iff
`max(0, Reserved − Watermark) + CapacityPressure > PressureAccountedFor` for at
least one resource.  (Truncated `Nat` subtraction is exactly `max(0, a − b)`.)
This definition follows the spec text, for comparison against
`tooMuchPressure`. -/
def tooMuchPressureClaim (vCPU memSlots : NodeResourceState) : Bool :=
  if vCPU.Reserved ≤ vCPU.Watermark ∧ memSlots.Reserved ≤ memSlots.Watermark then
    false
  else
    decide ((vCPU.Reserved - vCPU.Watermark) + vCPU.CapacityPressure >
        vCPU.PressureAccountedFor) ||
    decide ((memSlots.Reserved - memSlots.Watermark) + memSlots.CapacityPressure >
        memSlots.PressureAccountedFor)

/-- Non-VM resource sums on a node (`nodeOtherResourceState`). Raw quantities
are signed (kubernetes `resource.Quantity`). -/
@[ext]
structure NodeOtherResourceState where
  rawCpu : Int
  rawMemory : Int
  reservedCpu : Nat
  reservedMemSlots : Nat
deriving DecidableEq

/-- Non-VM resource sums of one pod (`podOtherResourceState`). -/
@[ext]
structure PodOtherResourceState where
  rawCpu : Int
  rawMemory : Int
deriving DecidableEq

/-- Method `subPod` from `state.go`, exactly as coded, together with the inlined
`calculateReserved`. `none` models a panic. Note that the memory underflow
guard compares `r.rawMemory` against itself, and that the final uint16
conversions wrap (Go `uint16(x)` on an `int64`). Division is Go `int64`
division, truncating toward zero. -/
def subPod (memSlotSize : Int) (r : NodeOtherResourceState)
    (p : PodOtherResourceState) : Option NodeOtherResourceState :=
  if r.rawCpu < p.rawCpu then
    none
  else if r.rawMemory < r.rawMemory then
    none
  else
    let newRawCpu := r.rawCpu - p.rawCpu
    let newRawMemory := r.rawMemory - p.rawMemory
    let newReservedMemSlots := Int.tdiv (newRawMemory + memSlotSize - 1) memSlotSize
    if newReservedMemSlots > 65535 then
      none
    else
      some { rawCpu := newRawCpu,
             rawMemory := newRawMemory,
             reservedCpu := (Int.emod newRawCpu (u16 : Int)).toNat,
             reservedMemSlots := (Int.emod newReservedMemSlots (u16 : Int)).toNat }

/-- Modelled from the spec: the VM placement (reserve) entry point is not among
the source files under study (only its transition helpers are). Per the data
model, placing a pod adds the pod ledger to the node ledger, keeping
`node.Reserved`, `node.Buffer` and `node.CapacityPressure` equal to the sums of
the corresponding pod fields. -/
def placePod (n : NodeResourceState) (p : PodResourceState) : NodeResourceState :=
  { n with
    Reserved := wadd n.Reserved p.Reserved,
    Buffer := wadd n.Buffer p.Buffer,
    CapacityPressure := wadd n.CapacityPressure p.CapacityPressure }

/-- Whole-pod state (`podState`): identity, the two per-resource ledgers, and
the migration handle. Pod names are modelled as `Nat` identifiers. -/
@[ext]
structure PodFull where
  name : Nat
  vCPU : PodResourceState
  memSlots : PodResourceState
  migrationState : Option Unit
deriving DecidableEq

/-- Whole-node state (`nodeState`): the two per-resource ledgers plus the
migration queue, modelled as the list of queued pod names. -/
@[ext]
structure NodeFull where
  vCPU : NodeResourceState
  memSlots : NodeResourceState
  mq : List Nat
deriving DecidableEq

/-- Method `currentlyMigrating` of `podState`. -/
def currentlyMigrating (p : PodFull) : Bool := p.migrationState.isSome

/-- Queue operation `removeIfPresent`, modelled on the list of queued names. -/
def removeIfPresent (mq : List Nat) (name : Nat) : List Nat :=
  mq.filter (fun x => x ≠ name)

/-- Entry point `startMigration` from `state.go`, exactly as coded: an early
error return when the pod is already migrating, otherwise remove the pod from
the queue, mark it migrating, add `pod.vCPU.Reserved + pod.vCPU.CapacityPressure`
to `node.vCPU.PressureAccountedFor` (the memory ledger is not touched), then
return the placeholder error. The result is the returned error (if any)
together with the final node and pod state. -/
def startMigration (n : NodeFull) (p : PodFull) :
    Option String × NodeFull × PodFull :=
  if currentlyMigrating p then
    (some "Pod is already migrating", n, p)
  else
    let n1 := { n with mq := removeIfPresent n.mq p.name }
    let p1 := { p with migrationState := some () }
    let n2 := { n1 with vCPU := { n1.vCPU with
      PressureAccountedFor :=
        (wadd n1.vCPU.PressureAccountedFor (wadd p1.vCPU.Reserved p1.vCPU.CapacityPressure)) } }
    (some "VM migration is currently unimplemented", n2, p1)

/-! Helper lemmas about the wrapping arithmetic. -/

theorem wadd_eq {a b : Nat} (h : a + b < u16) : wadd a b = a + b := by
  unfold wadd u16 at *; omega

theorem wsub_eq {a b : Nat} (hb : b ≤ a) (ha : a < u16) : wsub a b = a - b := by
  unfold wsub u16 at *; omega

theorem wsub_self (a : Nat) : wsub a a = 0 := by
  unfold wsub u16; omega

theorem wsub_zero {a : Nat} (h : a < u16) : wsub a 0 = a := by
  unfold wsub u16 at *; omega

theorem wmul_eq {a b : Nat} (h : a * b < u16) : wmul a b = a * b := by
  unfold wmul u16 at *; omega

theorem clearBuffer_snd_Reserved (n : NodeResourceState) (p : PodResourceState) :
    (clearBuffer n p).2.Reserved = p.Reserved := by
  unfold clearBuffer; split <;> rfl

/-- C1: the code of `tooMuchPressure` contradicts the claim. At a node whose
CPU is one unit above its watermark with two units of pressure accounted for,
and whose memory is strictly below its watermark with no capacity pressure, the
claim's clamped formula gives false, but the code returns true: the uint16
subtraction `Reserved − Watermark = 0 − 1` on the memory side wraps to 65535. -/
theorem tooMuchPressure_wraparound_failing_input :
    tooMuchPressure ⟨8, 0, 0, 1, 0, 0, 2⟩ ⟨8, 0, 1, 0, 0, 0, 0⟩ = true ∧
    tooMuchPressureClaim ⟨8, 0, 0, 1, 0, 0, 2⟩ ⟨8, 0, 1, 0, 0, 0, 0⟩ = false := by
  decide

/-- C2: evaluating `handleRequested` on the S2 scenario (node Total=8, System=1,
Reserved=6; pod Reserved=3; requested=6, factor=1). The code bounds the increase
by `node.Total` (not `Total − System`), so it grants the pod 5 (not 4), raises
node.Reserved to 8 (not 7), and records capacity pressure 1 (not 2) on both
ledgers. -/
theorem handleRequested_s2_failing_input :
    (handleRequested 6 false 1 ⟨8, 1, 6, 6, 0, 0, 0⟩ ⟨3, 0, 0, 0, 8⟩).map
        (fun s => (s.1.Reserved, s.1.CapacityPressure, s.2.Reserved, s.2.CapacityPressure)) =
      some (8, 1, 5, 1) ∧
    (⟨8, 1, 6, 6, 0, 0, 0⟩ : NodeResourceState).Total -
      (⟨8, 1, 6, 6, 0, 0, 0⟩ : NodeResourceState).System = 7 := by
  decide

/-- C5: `subPod` does not panic when the pod's raw memory exceeds the node's raw
memory (its memory guard compares `r.rawMemory` with itself); instead it
returns a state whose raw memory has underflowed to −1 and whose reserved
memory-slot count has wrapped to 65535. -/
theorem subPod_no_memory_underflow_panic :
    subPod 1 ⟨0, 1, 0, 0⟩ ⟨0, 2⟩ = some ⟨0, -1, 0, 65535⟩ ∧
    (⟨0, 2⟩ : PodOtherResourceState).rawMemory >
      (⟨0, 1, 0, 0⟩ : NodeOtherResourceState).rawMemory := by
  decide

/-- C8: a two-event run from a freshly hydrated node breaks the
`Reserved ≤ Total` invariant. Place a pod with Reserved=1 on an empty node with
Total=2 (a legitimate placement), then deliver `handleUpdatedLimits` with
receivedContact=false, newMin=0, newMax=5: the buffer recomputation raises
node.Reserved to 5, strictly above Total=2. -/
theorem updatedLimits_overcommit_failing_input :
    (handleUpdatedLimits false 0 5
        (placePod ⟨2, 0, 2, 0, 0, 0, 0⟩ ⟨1, 0, 0, 1, 1⟩) ⟨1, 0, 0, 1, 1⟩).1.Reserved = 5 ∧
    (placePod ⟨2, 0, 2, 0, 0, 0, 0⟩ ⟨1, 0, 0, 1, 1⟩).Reserved = 1 ∧
    (placePod ⟨2, 0, 2, 0, 0, 0, 0⟩ ⟨1, 0, 0, 1, 1⟩).Total = 2 ∧
    (2 : Nat) < 5 := by
  decide

/-- C10: if `startMigration` is called for a pod that is already migrating, it
returns a non-nil error and leaves the node state (ledgers and migration queue)
and the pod state exactly as they were. -/
theorem startMigration_already_migrating (nf : NodeFull) (pf : PodFull)
    (h : currentlyMigrating pf = true) :
    (startMigration nf pf).1.isSome = true ∧
    (startMigration nf pf).2.1 = nf ∧ (startMigration nf pf).2.2 = pf := by
  unfold startMigration
  rw [if_pos h]
  exact ⟨rfl, rfl, rfl⟩

/-- C10 witness: a concrete already-migrating pod. -/
theorem startMigration_already_migrating_witness :
    (startMigration ⟨⟨8, 1, 6, 2, 0, 1, 0⟩, ⟨8, 1, 6, 3, 0, 1, 0⟩, [0]⟩
        ⟨0, ⟨2, 0, 1, 0, 8⟩, ⟨3, 0, 1, 0, 8⟩, some ()⟩).1.isSome = true ∧
    (startMigration ⟨⟨8, 1, 6, 2, 0, 1, 0⟩, ⟨8, 1, 6, 3, 0, 1, 0⟩, [0]⟩
        ⟨0, ⟨2, 0, 1, 0, 8⟩, ⟨3, 0, 1, 0, 8⟩, some ()⟩).2.1 =
      ⟨⟨8, 1, 6, 2, 0, 1, 0⟩, ⟨8, 1, 6, 3, 0, 1, 0⟩, [0]⟩ ∧
    (startMigration ⟨⟨8, 1, 6, 2, 0, 1, 0⟩, ⟨8, 1, 6, 3, 0, 1, 0⟩, [0]⟩
        ⟨0, ⟨2, 0, 1, 0, 8⟩, ⟨3, 0, 1, 0, 8⟩, some ()⟩).2.2 =
      ⟨0, ⟨2, 0, 1, 0, 8⟩, ⟨3, 0, 1, 0, 8⟩, some ()⟩ :=
  startMigration_already_migrating
    ⟨⟨8, 1, 6, 2, 0, 1, 0⟩, ⟨8, 1, 6, 3, 0, 1, 0⟩, [0]⟩
    ⟨0, ⟨2, 0, 1, 0, 8⟩, ⟨3, 0, 1, 0, 8⟩, some ()⟩ rfl

/-- C6: `handleLastPermit` with `lastPermit ≤ pod.Reserved` lowers the pod to
`lastPermit`, lowers the node's `Reserved` by the same difference, zeroes the
pod's buffer and subtracts it from the node's buffer; a larger `lastPermit`
changes nothing. -/
theorem handleLastPermit_spec (lastPermit : Nat) (n : NodeResourceState)
    (p : PodResourceState) (hn : n.WF) (hp : p.WF)
    (hpn : p.Reserved ≤ n.Reserved) (hbn : p.Buffer ≤ n.Buffer) :
    (lastPermit ≤ p.Reserved →
      handleLastPermit lastPermit n p =
        ({ n with Reserved := n.Reserved - (p.Reserved - lastPermit), Buffer := n.Buffer - p.Buffer },
         { p with Reserved := lastPermit, Buffer := 0 })) ∧
    (p.Reserved < lastPermit → handleLastPermit lastPermit n p = (n, p)) := by
  obtain ⟨hT, hS, hW, hR, hB, hCP, hPAF⟩ := hn
  obtain ⟨hpR, hpB, hpCP, hpMin, hpMax⟩ := hp
  constructor
  · intro hle
    unfold handleLastPermit clearBuffer
    rw [if_pos hle]
    simp only []
    split_ifs with hb <;>
      simp only [Prod.mk.injEq, NodeResourceState.mk.injEq, PodResourceState.mk.injEq,
        and_true, true_and, eq_self_iff_true] <;>
      (unfold wsub u16 at *; omega)
  · intro hlt
    unfold handleLastPermit
    rw [if_neg (by omega)]

/-- C6 witness: the S5 scenario. From pod Reserved=5, Buffer=2 on a node with
Reserved=7, Buffer=3, replaying lastPermit=3 gives pod 3/0 and reduces the
node's Reserved and Buffer by 2 each. -/
theorem handleLastPermit_spec_witness :
    handleLastPermit 3 ⟨8, 1, 6, 7, 3, 0, 0⟩ ⟨5, 2, 0, 0, 8⟩ =
      (⟨8, 1, 6, 5, 1, 0, 0⟩, ⟨3, 0, 0, 0, 8⟩) :=
  (handleLastPermit_spec 3 ⟨8, 1, 6, 7, 3, 0, 0⟩ ⟨5, 2, 0, 0, 8⟩
    (by decide) (by decide) (by decide) (by decide)).1 (by decide)

/-- C4 (amended): a request equal to the current reservation leaves every ledger
field unchanged except that the pod's capacity pressure is cleared and
subtracted from the node's, and — as on every non-migration path of
`handleRequested` — the pod's buffer is also cleared and subtracted from the
node's buffer. -/
theorem handleRequested_notification (factor : Nat) (n : NodeResourceState)
    (p : PodResourceState) (hn : n.WF) (hp : p.WF)
    (hcp : p.CapacityPressure ≤ n.CapacityPressure)
    (hbuf : p.Buffer ≤ n.Buffer) :
    handleRequested p.Reserved false factor n p =
      some ({ n with CapacityPressure := n.CapacityPressure - p.CapacityPressure, Buffer := n.Buffer - p.Buffer },
            { p with CapacityPressure := 0, Buffer := 0 }) := by
  obtain ⟨hT, hS, hW, hR, hB, hCP, hPAF⟩ := hn
  obtain ⟨hpR, hpB, hpCP, hpMin, hpMax⟩ := hp
  unfold handleRequested clearBuffer
  simp only []
  rw [if_pos (le_refl p.Reserved)]
  split_ifs with hb <;>
    simp only [Option.some.injEq, Prod.mk.injEq, NodeResourceState.mk.injEq,
      PodResourceState.mk.injEq, and_true, true_and, eq_self_iff_true] <;>
    (unfold wsub u16 at *; omega)

/-- C4 witness: a concrete notification call with nonzero buffer and capacity
pressure. -/
theorem handleRequested_notification_witness :
    handleRequested 3 false 1 ⟨8, 1, 6, 5, 2, 1, 0⟩ ⟨3, 2, 1, 0, 8⟩ =
      some (⟨8, 1, 6, 5, 0, 0, 0⟩, ⟨3, 0, 0, 0, 8⟩) :=
  handleRequested_notification 1 ⟨8, 1, 6, 5, 2, 1, 0⟩ ⟨3, 2, 1, 0, 8⟩
    (by decide) (by decide) (by decide) (by decide)

/-- C4 counterexample: with a nonzero pod buffer, `handleRequested(requested =
pod.Reserved)` does not leave the buffers unchanged — both the pod's and the
node's buffer drop from 2 to 0, refuting the claim that only the capacity
pressure fields change. -/
theorem handleRequested_notification_counterexample :
    (handleRequested 3 false 1 ⟨8, 1, 6, 5, 2, 1, 0⟩ ⟨3, 2, 1, 0, 8⟩).map
        (fun s => (s.1.Buffer, s.2.Buffer)) = some (0, 0) ∧
    (⟨8, 1, 6, 5, 2, 1, 0⟩ : NodeResourceState).Buffer = 2 ∧
    (⟨3, 2, 1, 0, 8⟩ : PodResourceState).Buffer = 2 := by
  decide

/-- C3 (amended): on the increase path (`requested > pod.Reserved`, not
migrating) with positive factor, the change to `pod.Reserved` equals
`min(requested − pod.Reserved, ⌊remaining/factor⌋·factor)` with `remaining =
saturatingSub(node.Total, node.Reserved)`. The change is non-negative, and it is
a multiple of `factor` whenever the request is capped; an uncapped request is
granted exactly as asked, so its delta need not be a multiple of `factor`. -/
theorem handleRequested_increase_delta (requested factor : Nat)
    (n : NodeResourceState) (p : PodResourceState)
    (hn : n.WF) (hp : p.WF) (hreq : requested < u16)
    (hinc : p.Reserved < requested) (hf : 0 < factor) :
    ∃ n2 p2, handleRequested requested false factor n p = some (n2, p2) ∧
      p2.Reserved = p.Reserved +
        min (requested - p.Reserved) (saturatingSub n.Total n.Reserved / factor * factor) ∧
      p.Reserved ≤ p2.Reserved ∧
      (saturatingSub n.Total n.Reserved / factor * factor < requested - p.Reserved →
        factor ∣ (p2.Reserved - p.Reserved)) ∧
      (requested - p.Reserved ≤ saturatingSub n.Total n.Reserved / factor * factor →
        p2.Reserved = requested) := by
  obtain ⟨hT, hS, hW, hR, hB, hCP, hPAF⟩ := hn
  obtain ⟨hpR, hpB, hpCP, hpMin, hpMax⟩ := hp
  have hni : ¬ (requested ≤ p.Reserved) := by omega
  have hf0 : ¬ (factor = 0) := by omega
  have hwsub : wsub requested p.Reserved = requested - p.Reserved :=
    wsub_eq (Nat.le_of_lt hinc) hreq
  have hmulbound : saturatingSub n.Total n.Reserved / factor * factor < u16 :=
    Nat.lt_of_le_of_lt (Nat.le_trans (Nat.div_mul_le_self _ _) (Nat.sub_le _ _)) hT
  have hmul : wmul (saturatingSub n.Total n.Reserved / factor) factor =
      saturatingSub n.Total n.Reserved / factor * factor := wmul_eq hmulbound
  set M := saturatingSub n.Total n.Reserved / factor * factor with hM
  have hdvdM : factor ∣ M := by
    rw [hM]
    exact dvd_mul_left factor _
  unfold handleRequested clearBuffer
  simp only []
  rw [if_neg hni, if_neg (by decide : ¬ (false = true)), if_neg hf0]
  rw [hwsub, hmul]
  simp only [gt_iff_lt]
  by_cases hc : M < requested - p.Reserved
  · have hwadd : wadd p.Reserved M = p.Reserved + M := by
      apply wadd_eq
      unfold u16 at *
      omega
    simp only [if_pos hc]
    split_ifs with hb <;>
      refine ⟨_, _, rfl, ?_, ?_, ?_, ?_⟩ <;>
      dsimp only <;>
      simp only [hwadd] <;>
      first
        | omega
        | (intro h
           have hd : p.Reserved + M - p.Reserved = M := by omega
           rw [hd]
           exact hdvdM)
  · have hwadd : wadd p.Reserved (requested - p.Reserved) = requested := by
      rw [wadd_eq (by (unfold u16 at *; omega))]
      omega
    simp only [if_neg hc]
    split_ifs with hb <;>
      refine ⟨_, _, rfl, ?_, ?_, ?_, ?_⟩ <;>
      dsimp only <;>
      simp only [hwadd] <;>
      first
        | omega
        | (intro _; trivial)

/-- C3 witness: the S1-style grant. Node Total=8, Reserved=6; pod Reserved=3
requests 5 with factor 1; the increase of 2 fits and is granted exactly. -/
theorem handleRequested_increase_delta_witness :
    ∃ n2 p2, handleRequested 5 false 1 ⟨8, 1, 6, 6, 0, 0, 0⟩ ⟨3, 0, 0, 0, 8⟩ = some (n2, p2) ∧
      p2.Reserved = 3 + min (5 - 3) (saturatingSub 8 6 / 1 * 1) ∧
      3 ≤ p2.Reserved ∧
      (saturatingSub 8 6 / 1 * 1 < 5 - 3 → 1 ∣ (p2.Reserved - 3)) ∧
      (5 - 3 ≤ saturatingSub 8 6 / 1 * 1 → p2.Reserved = 5) :=
  handleRequested_increase_delta 5 1 ⟨8, 1, 6, 6, 0, 0, 0⟩ ⟨3, 0, 0, 0, 8⟩
    (by decide) (by decide) (by decide) (by decide) (by decide)

/-- C3 counterexample: with factor=4, a pod at Reserved=0 requesting 2 on an
empty node (Total=8) is on the increase path and is granted exactly 2 — a delta
that is not a multiple of the factor, refuting the claim that every increase
delta is a multiple of `factor`. -/
theorem handleRequested_quantisation_counterexample :
    (handleRequested 2 false 4 ⟨8, 1, 6, 0, 0, 0, 0⟩ ⟨0, 0, 0, 0, 8⟩).map
        (fun s => s.2.Reserved) = some 2 ∧
    (⟨0, 0, 0, 0, 8⟩ : PodResourceState).Reserved = 0 ∧
    ¬ (4 ∣ (2 : Nat)) := by
  decide

/-- C7: placement followed by deletion restores the node's Reserved, Buffer and
CapacityPressure; placement, then `handleStartMigration`, then
`handleDeleted(currentlyMigrating := true)` also restores them, and
`PressureAccountedFor` returns to its value from before the migration started
(placement itself never changes it). -/
theorem place_delete_roundtrip (n : NodeResourceState) (p : PodResourceState)
    (hn : n.WF) :
    (handleDeleted false (placePod n p) p).Reserved = n.Reserved ∧
    (handleDeleted false (placePod n p) p).Buffer = n.Buffer ∧
    (handleDeleted false (placePod n p) p).CapacityPressure = n.CapacityPressure ∧
    (handleDeleted false (placePod n p) p).PressureAccountedFor = n.PressureAccountedFor ∧
    (handleDeleted true (handleStartMigration true (placePod n p) p).1
        (handleStartMigration true (placePod n p) p).2).Reserved = n.Reserved ∧
    (handleDeleted true (handleStartMigration true (placePod n p) p).1
        (handleStartMigration true (placePod n p) p).2).Buffer = n.Buffer ∧
    (handleDeleted true (handleStartMigration true (placePod n p) p).1
        (handleStartMigration true (placePod n p) p).2).CapacityPressure = n.CapacityPressure ∧
    (handleDeleted true (handleStartMigration true (placePod n p) p).1
        (handleStartMigration true (placePod n p) p).2).PressureAccountedFor =
      (placePod n p).PressureAccountedFor ∧
    (placePod n p).PressureAccountedFor = n.PressureAccountedFor := by
  obtain ⟨hT, hS, hW, hR, hB, hCP, hPAF⟩ := hn
  unfold placePod handleStartMigration handleDeleted
  simp only []
  split_ifs <;>
    refine ⟨?_, ?_, ?_, ?_, ?_, ?_, ?_, ?_, ?_⟩ <;>
    dsimp only <;>
    simp only [wadd, wsub, u16] at * <;>
    omega

/-- C7 witness: a concrete pod with buffer and capacity pressure placed on a
node with prior ledgers (5, 1, 2, 3); both round trips restore them. -/
theorem place_delete_roundtrip_witness :
    (handleDeleted false (placePod ⟨8, 1, 6, 5, 1, 2, 3⟩ ⟨4, 2, 1, 0, 8⟩) ⟨4, 2, 1, 0, 8⟩).Reserved = 5 ∧
    (handleDeleted false (placePod ⟨8, 1, 6, 5, 1, 2, 3⟩ ⟨4, 2, 1, 0, 8⟩) ⟨4, 2, 1, 0, 8⟩).Buffer = 1 ∧
    (handleDeleted false (placePod ⟨8, 1, 6, 5, 1, 2, 3⟩ ⟨4, 2, 1, 0, 8⟩) ⟨4, 2, 1, 0, 8⟩).CapacityPressure = 2 ∧
    (handleDeleted false (placePod ⟨8, 1, 6, 5, 1, 2, 3⟩ ⟨4, 2, 1, 0, 8⟩) ⟨4, 2, 1, 0, 8⟩).PressureAccountedFor = 3 ∧
    (handleDeleted true (handleStartMigration true (placePod ⟨8, 1, 6, 5, 1, 2, 3⟩ ⟨4, 2, 1, 0, 8⟩) ⟨4, 2, 1, 0, 8⟩).1
        (handleStartMigration true (placePod ⟨8, 1, 6, 5, 1, 2, 3⟩ ⟨4, 2, 1, 0, 8⟩) ⟨4, 2, 1, 0, 8⟩).2).Reserved = 5 ∧
    (handleDeleted true (handleStartMigration true (placePod ⟨8, 1, 6, 5, 1, 2, 3⟩ ⟨4, 2, 1, 0, 8⟩) ⟨4, 2, 1, 0, 8⟩).1
        (handleStartMigration true (placePod ⟨8, 1, 6, 5, 1, 2, 3⟩ ⟨4, 2, 1, 0, 8⟩) ⟨4, 2, 1, 0, 8⟩).2).Buffer = 1 ∧
    (handleDeleted true (handleStartMigration true (placePod ⟨8, 1, 6, 5, 1, 2, 3⟩ ⟨4, 2, 1, 0, 8⟩) ⟨4, 2, 1, 0, 8⟩).1
        (handleStartMigration true (placePod ⟨8, 1, 6, 5, 1, 2, 3⟩ ⟨4, 2, 1, 0, 8⟩) ⟨4, 2, 1, 0, 8⟩).2).CapacityPressure = 2 ∧
    (handleDeleted true (handleStartMigration true (placePod ⟨8, 1, 6, 5, 1, 2, 3⟩ ⟨4, 2, 1, 0, 8⟩) ⟨4, 2, 1, 0, 8⟩).1
        (handleStartMigration true (placePod ⟨8, 1, 6, 5, 1, 2, 3⟩ ⟨4, 2, 1, 0, 8⟩) ⟨4, 2, 1, 0, 8⟩).2).PressureAccountedFor =
      (placePod ⟨8, 1, 6, 5, 1, 2, 3⟩ ⟨4, 2, 1, 0, 8⟩).PressureAccountedFor ∧
    (placePod ⟨8, 1, 6, 5, 1, 2, 3⟩ ⟨4, 2, 1, 0, 8⟩).PressureAccountedFor = 3 :=
  place_delete_roundtrip ⟨8, 1, 6, 5, 1, 2, 3⟩ ⟨4, 2, 1, 0, 8⟩ (by decide)

/-- C9 (amended): per resource, the transitioner's `handleStartMigration` is the
same update as `handleAutoscalingDisabled` followed by adding the pod's
resulting Reserved to the node's PressureAccountedFor; but the `startMigration`
entry point updates only the CPU ledger — it adds `pod.vCPU.Reserved +
pod.vCPU.CapacityPressure` to `node.vCPU.PressureAccountedFor`, removes the pod
from the queue and marks it migrating, leaving buffers, capacity pressure and
the entire memory ledger unchanged. -/
theorem startMigration_cpu_only (source : Bool) (n : NodeResourceState)
    (p : PodResourceState) (nf : NodeFull) (pf : PodFull)
    (h : pf.migrationState = none) :
    handleStartMigration source n p =
      ({ (handleAutoscalingDisabled n p).1 with PressureAccountedFor :=
          (wadd (handleAutoscalingDisabled n p).1.PressureAccountedFor
            (handleAutoscalingDisabled n p).2.Reserved) },
       (handleAutoscalingDisabled n p).2) ∧
    startMigration nf pf =
      (some "VM migration is currently unimplemented",
       { nf with mq := removeIfPresent nf.mq pf.name,
                 vCPU := { nf.vCPU with PressureAccountedFor :=
                    (wadd nf.vCPU.PressureAccountedFor
                      (wadd pf.vCPU.Reserved pf.vCPU.CapacityPressure)) } },
       { pf with migrationState := some () }) := by
  constructor
  · rfl
  · unfold startMigration currentlyMigrating
    rw [h]
    rfl

/-- C9 witness: starting a migration for a concrete non-migrating pod. -/
theorem startMigration_cpu_only_witness :
    startMigration ⟨⟨8, 1, 6, 2, 0, 1, 0⟩, ⟨8, 1, 6, 3, 0, 1, 0⟩, [0]⟩
        ⟨0, ⟨2, 0, 1, 0, 8⟩, ⟨3, 0, 1, 0, 8⟩, none⟩ =
      (some "VM migration is currently unimplemented",
       ⟨⟨8, 1, 6, 2, 0, 1, 3⟩, ⟨8, 1, 6, 3, 0, 1, 0⟩, []⟩,
       ⟨0, ⟨2, 0, 1, 0, 8⟩, ⟨3, 0, 1, 0, 8⟩, some ()⟩) :=
  (startMigration_cpu_only true ⟨8, 1, 6, 2, 0, 1, 0⟩ ⟨2, 0, 1, 0, 8⟩
    ⟨⟨8, 1, 6, 2, 0, 1, 0⟩, ⟨8, 1, 6, 3, 0, 1, 0⟩, [0]⟩
    ⟨0, ⟨2, 0, 1, 0, 8⟩, ⟨3, 0, 1, 0, 8⟩, none⟩ rfl).2

/-- C9 counterexample: starting a migration for a pod whose memory ledger has
Reserved=3 and CapacityPressure=1 leaves the node's memory ledger entirely
unchanged (PressureAccountedFor stays 0 instead of increasing by the pod's
resulting memory Reserved) and does not clear the pod's memory capacity
pressure — refuting the claim that both resources receive the
handleAutoscalingDisabled-plus-PressureAccountedFor update. -/
theorem startMigration_mem_untouched_counterexample :
    (startMigration ⟨⟨8, 1, 6, 2, 0, 1, 0⟩, ⟨8, 1, 6, 3, 0, 1, 0⟩, [0]⟩
        ⟨0, ⟨2, 0, 1, 0, 8⟩, ⟨3, 0, 1, 0, 8⟩, none⟩).2.1.memSlots = ⟨8, 1, 6, 3, 0, 1, 0⟩ ∧
    (startMigration ⟨⟨8, 1, 6, 2, 0, 1, 0⟩, ⟨8, 1, 6, 3, 0, 1, 0⟩, [0]⟩
        ⟨0, ⟨2, 0, 1, 0, 8⟩, ⟨3, 0, 1, 0, 8⟩, none⟩).2.2.memSlots.Reserved = 3 ∧
    (startMigration ⟨⟨8, 1, 6, 2, 0, 1, 0⟩, ⟨8, 1, 6, 3, 0, 1, 0⟩, [0]⟩
        ⟨0, ⟨2, 0, 1, 0, 8⟩, ⟨3, 0, 1, 0, 8⟩, none⟩).2.2.memSlots.CapacityPressure = 1 ∧
    (⟨8, 1, 6, 3, 0, 1, 0⟩ : NodeResourceState).PressureAccountedFor = 0 := by
  decide
